import Mathlib

/-!
Verification of the resilience core of `microserviceArchWithGo`:
the circuit breaker guarding the outbound dependency call, the retry
policy of the resilient HTTP client, the generic request dispatcher with
its four-source parameter binder, and the product handlers.

The breaker configuration (`ReadyToTrip`, thresholds, timeouts) is embedded
from `NewGetProductHandler`; the breaker state machine and the retry loop
live in library code outside `src/` and are modelled from the spec.
-/

namespace MicroArch

/-! ## Circuit breaker: rolling counts and trip predicate -/

/-- Rolling window counts of the circuit breaker
(`gobreaker.Counts` as used by `ReadyToTrip` in `NewGetProductHandler`). -/
structure Counts where
  requests : Nat
  totalSuccesses : Nat
  totalFailures : Nat
  consecutiveSuccesses : Nat
  consecutiveFailures : Nat
deriving DecidableEq, Repr

def Counts.zero : Counts := ⟨0, 0, 0, 0, 0⟩

/-- Count update after a successful call. -/
def Counts.onSuccess (c : Counts) : Counts :=
  { requests := c.requests + 1
    totalSuccesses := c.totalSuccesses + 1
    totalFailures := c.totalFailures
    consecutiveSuccesses := c.consecutiveSuccesses + 1
    consecutiveFailures := 0 }

/-- Count update after a failed call. -/
def Counts.onFailure (c : Counts) : Counts :=
  { requests := c.requests + 1
    totalSuccesses := c.totalSuccesses
    totalFailures := c.totalFailures + 1
    consecutiveSuccesses := 0
    consecutiveFailures := c.consecutiveFailures + 1 }

/-- Count update after a call with outcome `success`. -/
def Counts.update (c : Counts) (success : Bool) : Counts :=
  if success then c.onSuccess else c.onFailure

/-- The `ReadyToTrip` closure of `NewGetProductHandler`:

    failureRation := float64(counts.TotalFailures) / float64(counts.Requests)
    return counts.Requests >= 3 && failureRation >= 0.6

The Go code divides in IEEE float64.  For `requests = 0` the division is
`0/0 = NaN` when `totalFailures = 0` (every comparison with NaN is false)
and `+Inf` otherwise; both branches are written out below.  For
`1 ≤ requests` the comparison `float64(f)/float64(r) >= 0.6` agrees
exactly with the rational comparison `5*f ≥ 3*r` for all `uint32` counts:
a quotient `f/r ≠ 3/5` differs from `3/5` by at least `1/(5r) ≥ 2^-35`,
which dwarfs both the rounding error of the division and the distance
between the literal `0.6` and `3/5` (about `2^-54`), while `f/r = 3/5`
rounds to exactly the double of the literal `0.6`. -/
def readyToTrip (c : Counts) : Bool :=
  let ratioGE : Bool :=
    if c.requests = 0 then decide (0 < c.totalFailures)
    else decide (3 * c.requests ≤ 5 * c.totalFailures)
  decide (3 ≤ c.requests) && ratioGE

/-! ## Circuit breaker: state machine

Modelled from the spec: the `gobreaker` state machine itself is library
code not under `src/`.  States `Closed`, `Open`, `HalfOpen`; in `Closed`
counts roll over a window of `interval` (5s, `Interval` in
`NewGetProductHandler`) and `readyToTrip` moves the breaker to `Open`
recording `openedAt`; in `Open` calls fail fast with `BreakerOpenError`
until `openTimeout` (10s, `Timeout`) has elapsed, then the breaker moves
to `HalfOpen`; `HalfOpen` admits up to `maxProbeRequests` (3,
`MaxRequests`) probes, any failure reopens the breaker resetting
`openedAt`, and `maxProbeRequests` consecutive successes close it with
counts reset.  Counts reset on every state change. -/

inductive BreakerState where
  | closed
  | opened
  | halfOpen
deriving DecidableEq, Repr

/-- `Timeout` of the breaker settings, in seconds. -/
def openTimeout : Nat := 10

/-- `Interval` of the breaker settings, in seconds. -/
def interval : Nat := 5

/-- `MaxRequests` of the breaker settings. -/
def maxProbeRequests : Nat := 3

structure Breaker where
  state : BreakerState
  counts : Counts
  /-- start of the current rolling count window (`Closed` state). -/
  windowStart : Nat
  /-- instant the breaker last transitioned to `Open`. -/
  openedAt : Nat
deriving DecidableEq, Repr

/-- Outcome of one call through the breaker: rejected fast with
`BreakerOpenError`, rejected because the `HalfOpen` probe quota is
exhausted, or completed with the wrapped thunk's outcome. -/
inductive BreakerOutcome where
  | rejectedOpen
  | rejectedTooMany
  | completed (success : Bool)
deriving DecidableEq, Repr

/-- Result of one call: whether the wrapped dependency thunk was invoked,
the outcome reported to the caller, and the new breaker state. -/
structure StepResult where
  invoked : Bool
  outcome : BreakerOutcome
  breaker : Breaker
deriving DecidableEq, Repr

/-- One probe call in the `HalfOpen` state (`now` is the call instant,
`s` the thunk outcome the dependency would produce). -/
def halfOpenStep (b : Breaker) (now : Nat) (s : Bool) : StepResult :=
  if maxProbeRequests ≤ b.counts.requests then
    ⟨false, .rejectedTooMany, b⟩
  else if s then
    let c := b.counts.onSuccess
    if maxProbeRequests ≤ c.consecutiveSuccesses then
      ⟨true, .completed true,
        { state := .closed, counts := Counts.zero, windowStart := now, openedAt := b.openedAt }⟩
    else
      ⟨true, .completed true, { b with counts := c }⟩
  else
    ⟨true, .completed false,
      { state := .opened, counts := Counts.zero, windowStart := b.windowStart, openedAt := now }⟩

/-- One call through the breaker at instant `now`; `s` is the outcome the
wrapped dependency thunk would produce if invoked. -/
def Breaker.step (b : Breaker) (now : Nat) (s : Bool) : StepResult :=
  match b.state with
  | .closed =>
      let base := if b.windowStart + interval ≤ now then Counts.zero else b.counts
      let ws := if b.windowStart + interval ≤ now then now else b.windowStart
      let c := base.update s
      if readyToTrip c then
        ⟨true, .completed s,
          { state := .opened, counts := Counts.zero, windowStart := ws, openedAt := now }⟩
      else
        ⟨true, .completed s,
          { state := .closed, counts := c, windowStart := ws, openedAt := b.openedAt }⟩
  | .opened =>
      if b.openedAt + openTimeout ≤ now then
        halfOpenStep
          { state := .halfOpen, counts := Counts.zero
            windowStart := b.windowStart, openedAt := b.openedAt } now s
      else
        ⟨false, .rejectedOpen, b⟩
  | .halfOpen => halfOpenStep b now s

/-- Run a sequence of calls, each an instant paired with the thunk outcome. -/
def Breaker.run (b : Breaker) : List (Nat × Bool) → Breaker
  | [] => b
  | (t, s) :: rest => ((b.step t s).breaker).run rest

/-! ## Retry policy

Modelled from the spec: the retry loop of the resilient HTTP client is
library code not under `src/`; `src/` only configures it
(`retryClient.RetryMax = 0`, a `CheckRetry` that aborts with `ctx.Err()`
as soon as the caller's context is done, and otherwise the default
retryability predicate).  Per the spec, the policy wraps one fallible
attempt; a success terminates immediately; after a failed attempt,
`maxRetries` bounds the re-invocations, and before each retry the policy
checks first the caller's cancellation signal — surfacing cancellation as
the terminal error, not exhaustion — and then the retry-eligibility
predicate on the failure; exhaustion surfaces the last observed failure.

`cancelled n` tells whether the caller's context is already done when
checked after `n` issued attempts; `attempt i` is the outcome the `i`-th
attempt (0-based) would produce. -/

/-- Terminal state of the retry policy, carrying how many attempts were
issued. -/
inductive RetryResult (ε α : Type) where
  | success (a : α) (attempts : Nat)
  | failure (e : ε) (attempts : Nat)
  | cancelled (attempts : Nat)
deriving DecidableEq, Repr

/-- Number of attempts the retry policy issued. -/
def RetryResult.attempts : RetryResult ε α → Nat
  | .success _ n => n
  | .failure _ n => n
  | .cancelled n => n

/-- Modelled from the spec: the retry loop, `fuel` retries remaining and
`i` attempts already issued. -/
def retryGo (cancelled : Nat → Bool) (retryable : ε → Bool)
    (attempt : Nat → Except ε α) : Nat → Nat → RetryResult ε α
  | fuel, i =>
    match attempt i with
    | .ok a => .success a (i + 1)
    | .error e =>
      match fuel with
      | 0 => .failure e (i + 1)
      | f + 1 =>
        if cancelled (i + 1) then .cancelled (i + 1)
        else if retryable e then retryGo cancelled retryable attempt f (i + 1)
        else .failure e (i + 1)

/-- Modelled from the spec: run the retry policy with `maxRetries` retries
around the attempt function. -/
def retryRun (maxRetries : Nat) (cancelled : Nat → Bool) (retryable : ε → Bool)
    (attempt : Nat → Except ε α) : RetryResult ε α :=
  retryGo cancelled retryable attempt maxRetries 0

/-! ## Request dispatcher and parameter binder

The generic `handle` function of the source: it binds the request from
four sources in order — `ctx.BodyParser`, `ctx.ParamsParser`,
`ctx.QueryParser`, `ctx.ReqHeaderParser` — stopping with a 400 response
on the first hard failure, tolerating exactly
`fiber.ErrUnprocessableEntity` from the body parser (fiber reports an
absent or empty body, or an unsupported content type, with that error),
then invokes the business handler; a handler error yields a 500 response
and a success is serialized with `ctx.JSON`, which leaves the response at
fiber's default status 200.  Each fiber parser mutates the request value
in place and may fail; it is modelled as a function from the current
request value to the updated value paired with an optional error. -/

inductive ParseErr where
  | unprocessableEntity
  | other (msg : String)
deriving DecidableEq, Repr

/-- The `err.Error()` string of a parse failure. -/
def ParseErr.msg : ParseErr → String
  | .unprocessableEntity => "Unprocessable Entity"
  | .other m => m

/-- The four binding sources fiber exposes on a request context. -/
structure FiberCtx (R : Type) where
  bodyParser : R → R × Option ParseErr
  paramsParser : R → R × Option ParseErr
  queryParser : R → R × Option ParseErr
  reqHeaderParser : R → R × Option ParseErr

/-- Transport response produced by `handle`: a serialized success body or
an error object, each with its HTTP status. -/
inductive HttpResponse (Res : Type) where
  | json (status : Nat) (body : Res)
  | errorJson (status : Nat) (errMsg : String)
deriving DecidableEq, Repr

def HttpResponse.status : HttpResponse Res → Nat
  | .json s _ => s
  | .errorJson s _ => s

def statusOK : Nat := 200
def statusBadRequest : Nat := 400
def statusInternalServerError : Nat := 500

/-- The generic `handle[R, Res]` dispatcher from the source, starting from
the zero value `var req R`. -/
def dispatch {R Res : Type} [Inhabited R] (c : FiberCtx R)
    (handler : R → Except String Res) : HttpResponse Res :=
  let p1 := c.bodyParser default
  match p1.2 with
  | some (.other m) => .errorJson statusBadRequest m
  | _ =>
    let p2 := c.paramsParser p1.1
    match p2.2 with
    | some e => .errorJson statusBadRequest e.msg
    | none =>
      let p3 := c.queryParser p2.1
      match p3.2 with
      | some e => .errorJson statusBadRequest e.msg
      | none =>
        let p4 := c.reqHeaderParser p3.1
        match p4.2 with
        | some e => .errorJson statusBadRequest e.msg
        | none =>
          match handler p4.1 with
          | .error m => .errorJson statusInternalServerError m
          | .ok res => .json statusOK res

/-! ## Domain model and product handlers -/

/-- `domain.Product`. -/
structure Product where
  id : String
  name : String
deriving DecidableEq, Repr

/-- `GetProductRequest` (`ID` bound from the `:id` path parameter). -/
structure GetProductRequest where
  id : String
deriving DecidableEq, Repr, Inhabited

/-- `GetProductResponse` wrapping the found product. -/
structure GetProductResponse where
  product : Product
deriving DecidableEq, Repr

/-- Couchbase KV failure classes relevant to `CouchBaseRepository.GetProduct`. -/
inductive CouchErr where
  | documentNotFound
  | other (msg : String)
deriving DecidableEq, Repr

/-- `CouchBaseRepository.GetProduct`: a raw KV `Get` outcome is classified
so that `gocb.ErrDocumentNotFound` surfaces as the domain-level error
`"product not found"` while every other failure surfaces unchanged; on
success the decoded product is returned (the decode tail of the function
is cut off in the provided source and follows the spec's
`ProductStore.Get` contract). -/
def couchbaseGetProduct (rawGet : String → Except CouchErr Product) (id : String) :
    Except String Product :=
  match rawGet id with
  | .error .documentNotFound => .error "product not found"
  | .error (.other m) => .error m
  | .ok p => .ok p

/-- Collaborators of `GetProductHandler.Handle`, each field the outcome of
the corresponding call in the source: building the outbound request
against `httpServer + "/random-error"`
(`http.NewRequestWithContext`), converting it to a retryable request
(`retryablehttp.FromRequest`), the breaker-guarded dependency call
(`h.breaker.Execute` around `h.httpClient.Do` — a `BreakerOpenError` is
one of its error outcomes), draining the response body (`io.ReadAll`),
and the store lookup (`h.repository.GetProduct`). -/
structure GetDeps (Q RQ RS B : Type) where
  newRequest : Except String Q
  fromRequest : Q → Except String RQ
  breakerExecute : RQ → Except String RS
  readAll : RS → Except String B
  getProduct : String → Except String Product

/-- `GetProductHandler.Handle`: build the outbound request, convert it,
run it through the breaker, drain and discard the body, then look the
product up by the request's id; the first failure on this path is
returned as the handler's error. -/
def getProductHandle {Q RQ RS B : Type} (d : GetDeps Q RQ RS B)
    (req : GetProductRequest) : Except String GetProductResponse :=
  match d.newRequest with
  | .error e => .error e
  | .ok hr =>
    match d.fromRequest hr with
    | .error e => .error e
    | .ok rr =>
      match d.breakerExecute rr with
      | .error e => .error e
      | .ok resp =>
        match d.readAll resp with
        | .error e => .error e
        | .ok _ =>
          match d.getProduct req.id with
          | .error e => .error e
          | .ok p => .ok ⟨p⟩

/-! ## Routes as wired in `main` -/

/-- `GET /products/:id`: the generic dispatcher around
`GetProductHandler.Handle`. -/
def getProductRoute {Q RQ RS B : Type} (d : GetDeps Q RQ RS B)
    (c : FiberCtx GetProductRequest) : HttpResponse GetProductResponse :=
  dispatch c (fun req => getProductHandle d req)

/-- `CreateProductRequest` (`Name` bound from the JSON body). -/
structure CreateProductRequest where
  name : String
deriving DecidableEq, Repr, Inhabited

/-- `CreateProductResponse` carrying the new product's identifier. -/
structure CreateProductResponse where
  id : String
deriving DecidableEq, Repr

/-- `CreateProductHandler.Handle`: generates a fresh identifier
(`uuid.New().String()`, modelled as the `newUUID` argument), builds the
product from it and the request's name, delegates persistence to
`repository.CreateProduct`, and returns the created product's own id. -/
def createProductHandle (createProduct : Product → Except String Unit)
    (newUUID : String) (req : CreateProductRequest) :
    Except String CreateProductResponse :=
  let product : Product := ⟨newUUID, req.name⟩
  match createProduct product with
  | .error e => .error e
  | .ok _ => .ok ⟨product.id⟩

/-- `POST /products`: the generic dispatcher around
`CreateProductHandler.Handle`. -/
def createProductRoute (createProduct : Product → Except String Unit)
    (newUUID : String) (c : FiberCtx CreateProductRequest) :
    HttpResponse CreateProductResponse :=
  dispatch c (fun req => createProductHandle createProduct newUUID req)

/-- Concrete dependencies of `GET /products/:id` whose store reports the
document missing, classified by the repository as `"product not found"`. -/
def notFoundDeps : GetDeps Unit Unit Unit Unit :=
  GetDeps.mk (.ok ()) (fun _ => .ok ()) (fun _ => .ok ()) (fun _ => .ok ())
    (couchbaseGetProduct (fun _ => .error .documentNotFound))

/-- Concrete transport context of a `GET /products/:id` request: no body
(fiber reports `ErrUnprocessableEntity`), the `:id` path parameter bound,
nothing in query or headers. -/
def getIdCtx : FiberCtx GetProductRequest :=
  FiberCtx.mk (fun r => (r, some .unprocessableEntity))
    (fun _ => (⟨"does-not-exist"⟩, none)) (fun r => (r, none)) (fun r => (r, none))

/-- Concrete transport context of a `POST /products` request whose JSON
body binds the name `"Widget"`. -/
def postCtx : FiberCtx CreateProductRequest :=
  FiberCtx.mk (fun _ => (⟨"Widget"⟩, none)) (fun r => (r, none))
    (fun r => (r, none)) (fun r => (r, none))

/-- Claim C9: the trip predicate `ReadyToTrip` is total and returns `true`
exactly when the window holds at least 3 requests and the failure ratio is
at least 0.6 (as a rational comparison, `5 * failures ≥ 3 * requests`);
with zero requests the NaN comparison makes it return `false`, so the
breaker can never trip with fewer than 3 requests in the window. -/
theorem readyToTrip_characterization (c : Counts) :
    (readyToTrip c = true ↔ 3 ≤ c.requests ∧ 3 * c.requests ≤ 5 * c.totalFailures)
    ∧ (c.requests = 0 → readyToTrip c = false) := by
  constructor
  · unfold readyToTrip
    by_cases h : c.requests = 0
    · simp [h]
    · simp [h]
  · intro h
    unfold readyToTrip
    simp [h]

/-- Witness for C9: the all-zero window (where the Go code computes `0/0 = NaN`)
does not trip the breaker. -/
theorem readyToTrip_characterization_witness : readyToTrip Counts.zero = false :=
  (readyToTrip_characterization Counts.zero).2 rfl

/-- Claim C1: when a call in `Closed` (inside the current rolling window)
pushes the counts past the trip predicate — at least 3 requests and
failure ratio at least 0.6 — the breaker transitions to `Open` recording
`openedAt = now`; and any call made in `Open` before `openTimeout` (10s)
has elapsed is rejected with `BreakerOpenError` without invoking the
wrapped dependency thunk, leaving the breaker unchanged (hence every such
call is rejected). -/
theorem closed_trips_then_open_rejects
    (b : Breaker) (now : Nat) (s : Bool)
    (b2 : Breaker) (t : Nat) (s2 : Bool)
    (hclosed : b.state = .closed)
    (hwin : now < b.windowStart + interval)
    (htrip : readyToTrip (b.counts.update s) = true)
    (hopen : b2.state = .opened)
    (ht : t < b2.openedAt + openTimeout) :
    ((b.step now s).breaker.state = .opened ∧ (b.step now s).breaker.openedAt = now)
    ∧ ((b2.step t s2).invoked = false ∧ (b2.step t s2).outcome = .rejectedOpen
        ∧ (b2.step t s2).breaker = b2) := by
  obtain ⟨st, c, ws, oa⟩ := b
  obtain ⟨st2, c2, ws2, oa2⟩ := b2
  simp only at hclosed hopen hwin htrip ht
  subst hclosed
  subst hopen
  have hw : ¬ (ws + interval ≤ now) := by omega
  have ho : ¬ (oa2 + openTimeout ≤ t) := by omega
  constructor
  · simp [Breaker.step, hw, htrip]
  · simp [Breaker.step, ho]

/-- Witness for C1: a breaker in `Closed` with window counts 2 failures out
of 2 requests trips on a third failing call and opens; a breaker opened at
instant 1 rejects a call at instant 5 without invoking the thunk. -/
theorem closed_trips_then_open_rejects_witness :
    (((Breaker.mk .closed ⟨2, 0, 2, 0, 2⟩ 0 0).step 1 false).breaker.state = .opened
      ∧ ((Breaker.mk .closed ⟨2, 0, 2, 0, 2⟩ 0 0).step 1 false).breaker.openedAt = 1)
    ∧ (((Breaker.mk .opened Counts.zero 0 1).step 5 true).invoked = false
      ∧ ((Breaker.mk .opened Counts.zero 0 1).step 5 true).outcome = .rejectedOpen
      ∧ ((Breaker.mk .opened Counts.zero 0 1).step 5 true).breaker
          = Breaker.mk .opened Counts.zero 0 1) :=
  closed_trips_then_open_rejects (Breaker.mk .closed ⟨2, 0, 2, 0, 2⟩ 0 0) 1 false
    (Breaker.mk .opened Counts.zero 0 1) 5 true rfl (by decide) (by decide) rfl (by decide)

/-- Claim C2: in `HalfOpen` the breaker admits at most `maxProbeRequests`
(3) probe calls — beyond the quota a call is rejected without invoking the
thunk; within the quota the thunk is invoked; any single probe failure
immediately transitions back to `Open` resetting the open timer
(`openedAt = now`) and the counts; and when a probe success brings the
consecutive-success count to 3 the breaker transitions to `Closed` with
all rolling counts reset to zero. -/
theorem halfOpen_probe_behavior
    (b : Breaker) (now : Nat) (s : Bool)
    (hh : b.state = .halfOpen) :
    (maxProbeRequests ≤ b.counts.requests →
      (b.step now s).invoked = false ∧ (b.step now s).breaker = b)
    ∧ (b.counts.requests < maxProbeRequests → (b.step now s).invoked = true)
    ∧ (b.counts.requests < maxProbeRequests → s = false →
      (b.step now s).breaker.state = .opened
        ∧ (b.step now s).breaker.openedAt = now
        ∧ (b.step now s).breaker.counts = Counts.zero)
    ∧ (b.counts.requests < maxProbeRequests → s = true →
      maxProbeRequests ≤ b.counts.consecutiveSuccesses + 1 →
      (b.step now s).breaker.state = .closed
        ∧ (b.step now s).breaker.counts = Counts.zero) := by
  obtain ⟨st, c, ws, oa⟩ := b
  simp only at hh
  subst hh
  refine ⟨?_, ?_, ?_, ?_⟩
  · intro hq
    replace hq : maxProbeRequests ≤ c.requests := hq
    simp [Breaker.step, halfOpenStep, hq]
  · intro hq
    replace hq : c.requests < maxProbeRequests := hq
    have h1 : ¬ (maxProbeRequests ≤ c.requests) := by omega
    cases s
    · simp [Breaker.step, halfOpenStep, h1]
    · by_cases hcs : maxProbeRequests ≤ c.onSuccess.consecutiveSuccesses
      · simp [Breaker.step, halfOpenStep, h1, hcs]
      · simp [Breaker.step, halfOpenStep, h1, hcs]
  · intro hq hs
    replace hq : c.requests < maxProbeRequests := hq
    subst hs
    have h1 : ¬ (maxProbeRequests ≤ c.requests) := by omega
    simp [Breaker.step, halfOpenStep, h1]
  · intro hq hs hcs
    replace hq : c.requests < maxProbeRequests := hq
    replace hcs : maxProbeRequests ≤ c.consecutiveSuccesses + 1 := hcs
    subst hs
    have h1 : ¬ (maxProbeRequests ≤ c.requests) := by omega
    have h2 : maxProbeRequests ≤ c.onSuccess.consecutiveSuccesses := by
      simp only [Counts.onSuccess]
      omega
    simp [Breaker.step, halfOpenStep, h1, h2]

/-- Witness for C2: a `HalfOpen` breaker that has already seen 2 successful
probes admits a third probe, and on its success closes with counts reset. -/
theorem halfOpen_probe_behavior_witness :
    ((Breaker.mk .halfOpen ⟨2, 2, 0, 2, 0⟩ 0 7).step 20 true).breaker.state = .closed
    ∧ ((Breaker.mk .halfOpen ⟨2, 2, 0, 2, 0⟩ 0 7).step 20 true).breaker.counts
        = Counts.zero :=
  (halfOpen_probe_behavior (Breaker.mk .halfOpen ⟨2, 2, 0, 2, 0⟩ 0 7) 20 true
      rfl).2.2.2 (by decide) rfl (by decide)

/-- Claim C3: with `maxRetries = 2`, an attempt function that fails twice
with retryable errors then succeeds yields the success after exactly 3
attempts; one that fails on all three attempts yields the last observed
failure after exactly `maxRetries + 1 = 3` attempts; and with
`maxRetries = 0` (the configured `RetryMax`) the call is attempted exactly
once and the terminal state is the first attempt's outcome. -/
theorem retry_policy_attempt_counts
    (cancelled : Nat → Bool) (retryable : ε → Bool)
    (attempt : Nat → Except ε α) (a : α) (e0 e1 e2 : ε)
    (hnc1 : cancelled 1 = false) (hnc2 : cancelled 2 = false)
    (hr0 : retryable e0 = true) (hr1 : retryable e1 = true) :
    (attempt 0 = .error e0 → attempt 1 = .error e1 → attempt 2 = .ok a →
      retryRun 2 cancelled retryable attempt = .success a 3)
    ∧ (attempt 0 = .error e0 → attempt 1 = .error e1 → attempt 2 = .error e2 →
      retryRun 2 cancelled retryable attempt = .failure e2 3)
    ∧ (retryRun 0 cancelled retryable attempt
        = match attempt 0 with
          | .ok x => .success x 1
          | .error ex => .failure ex 1)
    ∧ (retryRun 0 cancelled retryable attempt).attempts = 1 := by
  refine ⟨?_, ?_, ?_, ?_⟩
  · intro h0 h1 h2
    simp [retryRun, retryGo, h0, h1, h2, hnc1, hnc2, hr0, hr1]
  · intro h0 h1 h2
    simp [retryRun, retryGo, h0, h1, h2, hnc1, hnc2, hr0, hr1]
  · cases h : attempt 0 <;> simp [retryRun, retryGo, h]
  · cases h : attempt 0 <;> simp [retryRun, retryGo, h, RetryResult.attempts]

/-- Witness for C3 on concrete attempt functions over `Nat`. -/
theorem retry_policy_attempt_counts_witness :
    ((fun i => if i = 2 then (.ok 7 : Except Nat Nat) else .error i) 0 = .error 0 →
      (fun i => if i = 2 then (.ok 7 : Except Nat Nat) else .error i) 1 = .error 1 →
      (fun i => if i = 2 then (.ok 7 : Except Nat Nat) else .error i) 2 = .ok 7 →
      retryRun 2 (fun _ => false) (fun _ => true)
        (fun i => if i = 2 then (.ok 7 : Except Nat Nat) else .error i) = .success 7 3)
    ∧ ((fun i => if i = 2 then (.ok 7 : Except Nat Nat) else .error i) 0 = .error 0 →
      (fun i => if i = 2 then (.ok 7 : Except Nat Nat) else .error i) 1 = .error 1 →
      (fun i => if i = 2 then (.ok 7 : Except Nat Nat) else .error i) 2 = .error 2 →
      retryRun 2 (fun _ => false) (fun _ => true)
        (fun i => if i = 2 then (.ok 7 : Except Nat Nat) else .error i) = .failure 2 3)
    ∧ (retryRun 0 (fun _ => false) (fun _ => true)
        (fun i => if i = 2 then (.ok 7 : Except Nat Nat) else .error i)
        = match (fun i => if i = 2 then (.ok 7 : Except Nat Nat) else .error i) 0 with
          | .ok x => .success x 1
          | .error ex => .failure ex 1)
    ∧ (retryRun 0 (fun _ => false) (fun _ => true)
        (fun i => if i = 2 then (.ok 7 : Except Nat Nat) else .error i)).attempts = 1 :=
  retry_policy_attempt_counts (fun _ => false) (fun _ => true)
    (fun i => if i = 2 then (.ok 7 : Except Nat Nat) else .error i)
    7 0 1 2 rfl rfl rfl rfl

/-- Claim C4: if the caller's context is already done when the policy
checks before a retry (a failed attempt with at least one retry left),
no further attempt is issued and the terminal state is the cancellation,
not a retry-exhaustion failure. -/
theorem retry_cancellation_preempts
    (maxRetries : Nat) (cancelled : Nat → Bool) (retryable : ε → Bool)
    (attempt : Nat → Except ε α) (i fuel : Nat) (e : ε)
    (hA : attempt i = .error e) (hc : cancelled (i + 1) = true)
    (h0 : attempt 0 = .error e) (hc0 : cancelled 1 = true)
    (hmr : 0 < maxRetries) :
    retryGo cancelled retryable attempt (fuel + 1) i = .cancelled (i + 1)
    ∧ retryRun maxRetries cancelled retryable attempt = .cancelled 1
    ∧ ∀ (e2 : ε) (n : Nat),
        retryRun maxRetries cancelled retryable attempt ≠ .failure e2 n := by
  have hgo : ∀ (f j : Nat), attempt j = .error e → cancelled (j + 1) = true →
      retryGo cancelled retryable attempt (f + 1) j = .cancelled (j + 1) := by
    intro f j hj hcj
    simp [retryGo, hj, hcj]
  obtain ⟨m, rfl⟩ : ∃ m, maxRetries = m + 1 := ⟨maxRetries - 1, by omega⟩
  have hrun : retryRun (m + 1) cancelled retryable attempt = .cancelled 1 := by
    simpa [retryRun] using hgo m 0 h0 hc0
  refine ⟨hgo fuel i hA hc, hrun, ?_⟩
  intro e2 n hcontra
  rw [hrun] at hcontra
  exact RetryResult.noConfusion hcontra

/-- Witness for C4: an always-failing attempt under an immediately-done
context with `maxRetries = 2` terminates as a cancellation after the
first attempt. -/
theorem retry_cancellation_preempts_witness :
    retryGo (fun _ => true) (fun _ => true) (fun i => (.error i : Except Nat Nat)) 1 0
      = .cancelled 1
    ∧ retryRun 2 (fun _ => true) (fun _ => true) (fun i => (.error i : Except Nat Nat))
      = .cancelled 1
    ∧ ∀ (e2 n : Nat),
        retryRun 2 (fun _ => true) (fun _ => true) (fun i => (.error i : Except Nat Nat))
          ≠ .failure e2 n :=
  retry_cancellation_preempts 2 (fun _ => true) (fun _ => true)
    (fun i => (.error i : Except Nat Nat)) 0 0 0 rfl rfl rfl rfl (by decide)

/-- Claim C5: the binder attempts body, path, query, header in that strict
order; the first hard parse failure of any source yields a 400 response
immediately, for every handler (so the business handler is never
invoked); a body reported absent/empty (`ErrUnprocessableEntity`) is
tolerated; and sources that find nothing to bind (returning no error)
never fail the operation — the handler then runs on the merged value. -/
theorem binder_order_and_short_circuit {R Res : Type} [Inhabited R] :
    (∀ (c : FiberCtx R) (handler : R → Except String Res) (r1 : R) (m : String),
      c.bodyParser default = (r1, some (.other m)) →
      dispatch c handler = .errorJson statusBadRequest m)
    ∧ (∀ (c : FiberCtx R) (handler : R → Except String Res) (r1 r2 : R)
        (o : Option ParseErr) (e : ParseErr),
      c.bodyParser default = (r1, o) →
      (o = none ∨ o = some .unprocessableEntity) →
      c.paramsParser r1 = (r2, some e) →
      dispatch c handler = .errorJson statusBadRequest e.msg)
    ∧ (∀ (c : FiberCtx R) (handler : R → Except String Res) (r1 r2 r3 : R)
        (o : Option ParseErr) (e : ParseErr),
      c.bodyParser default = (r1, o) →
      (o = none ∨ o = some .unprocessableEntity) →
      c.paramsParser r1 = (r2, none) →
      c.queryParser r2 = (r3, some e) →
      dispatch c handler = .errorJson statusBadRequest e.msg)
    ∧ (∀ (c : FiberCtx R) (handler : R → Except String Res) (r1 r2 r3 r4 : R)
        (o : Option ParseErr) (e : ParseErr),
      c.bodyParser default = (r1, o) →
      (o = none ∨ o = some .unprocessableEntity) →
      c.paramsParser r1 = (r2, none) →
      c.queryParser r2 = (r3, none) →
      c.reqHeaderParser r3 = (r4, some e) →
      dispatch c handler = .errorJson statusBadRequest e.msg)
    ∧ (∀ (c : FiberCtx R) (handler : R → Except String Res) (r1 r2 r3 r4 : R)
        (o : Option ParseErr),
      c.bodyParser default = (r1, o) →
      (o = none ∨ o = some .unprocessableEntity) →
      c.paramsParser r1 = (r2, none) →
      c.queryParser r2 = (r3, none) →
      c.reqHeaderParser r3 = (r4, none) →
      dispatch c handler
        = match handler r4 with
          | .ok res => .json statusOK res
          | .error m => .errorJson statusInternalServerError m) := by
  refine ⟨?_, ?_, ?_, ?_, ?_⟩
  · intro c handler r1 m h1
    simp [dispatch, h1]
  · intro c handler r1 r2 o e h1 ho h2
    rcases ho with rfl | rfl <;> simp [dispatch, h1, h2]
  · intro c handler r1 r2 r3 o e h1 ho h2 h3
    rcases ho with rfl | rfl <;> simp [dispatch, h1, h2, h3]
  · intro c handler r1 r2 r3 r4 o e h1 ho h2 h3 h4
    rcases ho with rfl | rfl <;> simp [dispatch, h1, h2, h3, h4]
  · intro c handler r1 r2 r3 r4 o h1 ho h2 h3 h4
    rcases ho with rfl | rfl <;> simp [dispatch, h1, h2, h3, h4] <;>
      cases handler r4 <;> rfl

/-- Witness for C5: a malformed body on a concrete context yields a 400
response carrying the body parser's message, for a handler that would
otherwise succeed. -/
theorem binder_order_and_short_circuit_witness :
    dispatch
      (FiberCtx.mk (fun r => (r, some (.other "bad body")))
        (fun r => (r, none)) (fun r => (r, none)) (fun r => (r, none)))
      (fun (_ : Nat) => (.ok 0 : Except String Nat))
      = .errorJson statusBadRequest "bad body" :=
  binder_order_and_short_circuit.1
    (FiberCtx.mk (fun r => (r, some (.other "bad body")))
      (fun r => (r, none)) (fun r => (r, none)) (fun r => (r, none)))
    (fun _ => .ok 0) 0 "bad body" rfl

/-- When the pre-lookup pipeline succeeds, `Handle` reduces to the store
lookup at the request's id. -/
theorem getProductHandle_success_shape {Q RQ RS B : Type}
    (d : GetDeps Q RQ RS B) (req : GetProductRequest)
    (hr : Q) (rr : RQ) (resp : RS) (body : B)
    (h1 : d.newRequest = .ok hr) (h2 : d.fromRequest hr = .ok rr)
    (h3 : d.breakerExecute rr = .ok resp) (h4 : d.readAll resp = .ok body) :
    getProductHandle d req
      = match d.getProduct req.id with
        | .error e => .error e
        | .ok p => .ok ⟨p⟩ := by
  simp [getProductHandle, h1, h2, h3, h4]

/-- Claim C8: the breaker-guarded auxiliary call runs strictly before the
store lookup: when it fails (for any reason, breaker-open included), the
handler returns exactly that error, and the result does not depend on the
store at all — `ProductStore.Get` is never invoked; when the whole guarded
pipeline succeeds, the handler's result is exactly the store lookup at the
request's id. -/
theorem aux_call_before_store_get {Q RQ RS B : Type}
    (d : GetDeps Q RQ RS B) (req : GetProductRequest)
    (hr : Q) (rr : RQ) (e : String)
    (h1 : d.newRequest = .ok hr) (h2 : d.fromRequest hr = .ok rr)
    (h3 : d.breakerExecute rr = .error e) :
    getProductHandle d req = .error e
    ∧ (∀ g1 g2 : String → Except String Product,
        getProductHandle { d with getProduct := g1 } req
          = getProductHandle { d with getProduct := g2 } req)
    ∧ (∀ (d2 : GetDeps Q RQ RS B) (hr2 : Q) (rr2 : RQ) (resp2 : RS) (body2 : B),
        d2.newRequest = .ok hr2 → d2.fromRequest hr2 = .ok rr2 →
        d2.breakerExecute rr2 = .ok resp2 → d2.readAll resp2 = .ok body2 →
        getProductHandle d2 req
          = match d2.getProduct req.id with
            | .error e2 => .error e2
            | .ok p => .ok ⟨p⟩) := by
  refine ⟨?_, ?_, ?_⟩
  · simp [getProductHandle, h1, h2, h3]
  · intro g1 g2
    simp [getProductHandle, h1, h2, h3]
  · intro d2 hr2 rr2 resp2 body2 k1 k2 k3 k4
    exact getProductHandle_success_shape d2 req hr2 rr2 resp2 body2 k1 k2 k3 k4

/-- Witness for C8: with the guarded call failing as `"breaker open"` the
handler surfaces exactly that error on a concrete dependency record. -/
theorem aux_call_before_store_get_witness :
    getProductHandle
      (GetDeps.mk (.ok ()) (fun _ => .ok ()) (fun _ => .error "breaker open")
        (fun _ => .ok ()) (fun _ => .ok ⟨"p1", "Widget"⟩) : GetDeps Unit Unit Unit Unit)
      ⟨"p1"⟩
      = .error "breaker open" :=
  (aux_call_before_store_get
    (GetDeps.mk (.ok ()) (fun _ => .ok ()) (fun _ => .error "breaker open")
      (fun _ => .ok ()) (fun _ => .ok ⟨"p1", "Widget"⟩))
    ⟨"p1"⟩ () () "breaker open" rfl rfl rfl).1

/-- Claim C10: the content of the auxiliary dependency's response body is
read and discarded — two executions whose guarded calls succeed with
arbitrarily different bodies (even of different types) and whose store
lookups agree at the request's id produce identical responses. -/
theorem dependency_body_noninterference
    {Q RQ RS B Q2 RQ2 RS2 B2 : Type}
    (d1 : GetDeps Q RQ RS B) (d2 : GetDeps Q2 RQ2 RS2 B2)
    (req : GetProductRequest)
    (hr1 : Q) (rr1 : RQ) (resp1 : RS) (body1 : B)
    (hr2 : Q2) (rr2 : RQ2) (resp2 : RS2) (body2 : B2)
    (h1 : d1.newRequest = .ok hr1) (h2 : d1.fromRequest hr1 = .ok rr1)
    (h3 : d1.breakerExecute rr1 = .ok resp1) (h4 : d1.readAll resp1 = .ok body1)
    (k1 : d2.newRequest = .ok hr2) (k2 : d2.fromRequest hr2 = .ok rr2)
    (k3 : d2.breakerExecute rr2 = .ok resp2) (k4 : d2.readAll resp2 = .ok body2)
    (hsame : d1.getProduct req.id = d2.getProduct req.id) :
    getProductHandle d1 req = getProductHandle d2 req := by
  rw [getProductHandle_success_shape d1 req hr1 rr1 resp1 body1 h1 h2 h3 h4,
    getProductHandle_success_shape d2 req hr2 rr2 resp2 body2 k1 k2 k3 k4, hsame]

/-- Witness for C10: two concrete executions whose dependency bodies
differ (`"AAAA"` versus `[0, 1, 2]`) return the same response. -/
theorem dependency_body_noninterference_witness :
    getProductHandle
      (GetDeps.mk (.ok ()) (fun _ => .ok ()) (fun _ => .ok "resp-one")
        (fun s => .ok s)
        (fun i => .ok ⟨i, "Widget"⟩) : GetDeps Unit Unit String String)
      ⟨"p1"⟩
    = getProductHandle
      (GetDeps.mk (.ok ()) (fun _ => .ok ()) (fun _ => .ok [0, 1, 2])
        (fun s => .ok s)
        (fun i => .ok ⟨i, "Widget"⟩) : GetDeps Unit Unit (List Nat) (List Nat))
      ⟨"p1"⟩ :=
  dependency_body_noninterference
    (GetDeps.mk (.ok ()) (fun _ => .ok ()) (fun _ => .ok "resp-one")
      (fun s => .ok s) (fun i => .ok ⟨i, "Widget"⟩))
    (GetDeps.mk (.ok ()) (fun _ => .ok ()) (fun _ => .ok [0, 1, 2])
      (fun s => .ok s) (fun i => .ok ⟨i, "Widget"⟩))
    ⟨"p1"⟩ () () "resp-one" "resp-one" () () [0, 1, 2] [0, 1, 2]
    rfl rfl rfl rfl rfl rfl rfl rfl rfl

/-- Counterexample to Claim C6: a `GET /products/:id` whose store reports
the product missing is answered with status 500, not 404 — the dispatcher
maps every handler error to `StatusInternalServerError`. -/
theorem not_found_maps_to_500_counterexample :
    getProductRoute notFoundDeps getIdCtx
      = .errorJson statusInternalServerError "product not found"
    ∧ (getProductRoute notFoundDeps getIdCtx).status ≠ 404 := by
  exact ⟨rfl, by decide⟩

/-- Claim C6 as amended: the dispatcher classifies only binding failure
(400) against handler outcome: every handler error — domain not-found,
breaker-open, retry-exhaustion alike — is mapped to 500 with the error's
message, and a handler success to 200 with the serialized response;
domain not-found is not distinguished from infrastructure failure at the
transport boundary. -/
theorem dispatch_error_classification {R Res : Type} [Inhabited R] :
    (∀ (c : FiberCtx R) (handler : R → Except String Res) (r1 : R) (m : String),
      c.bodyParser default = (r1, some (.other m)) →
      (dispatch c handler).status = statusBadRequest)
    ∧ (∀ (c : FiberCtx R) (handler : R → Except String Res) (r1 r2 r3 r4 : R)
        (o : Option ParseErr) (m : String),
      c.bodyParser default = (r1, o) →
      (o = none ∨ o = some .unprocessableEntity) →
      c.paramsParser r1 = (r2, none) →
      c.queryParser r2 = (r3, none) →
      c.reqHeaderParser r3 = (r4, none) →
      handler r4 = .error m →
      dispatch c handler = .errorJson statusInternalServerError m)
    ∧ (∀ (c : FiberCtx R) (handler : R → Except String Res) (r1 r2 r3 r4 : R)
        (o : Option ParseErr) (res : Res),
      c.bodyParser default = (r1, o) →
      (o = none ∨ o = some .unprocessableEntity) →
      c.paramsParser r1 = (r2, none) →
      c.queryParser r2 = (r3, none) →
      c.reqHeaderParser r3 = (r4, none) →
      handler r4 = .ok res →
      dispatch c handler = .json statusOK res) := by
  refine ⟨?_, ?_, ?_⟩
  · intro c handler r1 m h1
    simp [dispatch, h1, HttpResponse.status]
  · intro c handler r1 r2 r3 r4 o m h1 ho h2 h3 h4 hh
    rcases ho with rfl | rfl <;> simp [dispatch, h1, h2, h3, h4, hh]
  · intro c handler r1 r2 r3 r4 o res h1 ho h2 h3 h4 hh
    rcases ho with rfl | rfl <;> simp [dispatch, h1, h2, h3, h4, hh]

/-- Witness for the amended C6: the not-found lookup of the
counterexample context is classified as a 500 through the general
classification theorem. -/
theorem dispatch_error_classification_witness :
    dispatch getIdCtx (fun req => getProductHandle notFoundDeps req)
      = .errorJson statusInternalServerError "product not found" :=
  dispatch_error_classification.2.1 getIdCtx
    (fun req => getProductHandle notFoundDeps req)
    ⟨""⟩ ⟨"does-not-exist"⟩ ⟨"does-not-exist"⟩ ⟨"does-not-exist"⟩
    (some .unprocessableEntity) "product not found"
    rfl (Or.inr rfl) rfl rfl rfl rfl

/-- Counterexample to Claim C7: a successful `POST /products` is answered
with status 200, not 201 — the dispatcher serializes every handler
success with `ctx.JSON` at fiber's default status. -/
theorem create_returns_200_counterexample :
    createProductRoute (fun _ => .ok ()) "3a7f-4c2e-9d10" postCtx
      = .json statusOK ⟨"3a7f-4c2e-9d10"⟩
    ∧ (createProductRoute (fun _ => .ok ()) "3a7f-4c2e-9d10" postCtx).status = 200
    ∧ (createProductRoute (fun _ => .ok ()) "3a7f-4c2e-9d10" postCtx).status ≠ 201 := by
  exact ⟨rfl, rfl, by decide⟩

/-- Claim C7 as amended: `POST /products` with body `{"name": string}`
returns status 200 (not 201) with body `{"id": string}` where the id is
the fresh server-generated identifier, equal to the id of the product
passed to `ProductStore.Create`; a malformed body yields a 400. -/
theorem create_product_route_contract
    (createProduct : Product → Except String Unit) (newUUID : String)
    (c : FiberCtx CreateProductRequest) :
    (∀ (r1 : CreateProductRequest) (m : String),
      c.bodyParser default = (r1, some (.other m)) →
      createProductRoute createProduct newUUID c = .errorJson statusBadRequest m)
    ∧ (∀ (r1 r2 r3 r4 : CreateProductRequest) (o : Option ParseErr),
      c.bodyParser default = (r1, o) →
      (o = none ∨ o = some .unprocessableEntity) →
      c.paramsParser r1 = (r2, none) →
      c.queryParser r2 = (r3, none) →
      c.reqHeaderParser r3 = (r4, none) →
      createProduct ⟨newUUID, r4.name⟩ = .ok () →
      createProductRoute createProduct newUUID c = .json statusOK ⟨newUUID⟩) := by
  constructor
  · intro r1 m h1
    simp [createProductRoute, dispatch, h1]
  · intro r1 r2 r3 r4 o h1 ho h2 h3 h4 hok
    rcases ho with rfl | rfl <;>
      simp [createProductRoute, dispatch, createProductHandle, h1, h2, h3, h4, hok]

/-- Witness for the amended C7: on the concrete `POST /products` context
binding `{"name": "Widget"}`, with an accepting store and the fresh id
`"3a7f-4c2e-9d10"`, the route answers 200 with exactly that id. -/
theorem create_product_route_contract_witness :
    createProductRoute (fun _ => .ok ()) "3a7f-4c2e-9d10" postCtx
      = .json statusOK ⟨"3a7f-4c2e-9d10"⟩ :=
  (create_product_route_contract (fun _ => .ok ()) "3a7f-4c2e-9d10" postCtx).2
    ⟨"Widget"⟩ ⟨"Widget"⟩ ⟨"Widget"⟩ ⟨"Widget"⟩ none rfl (Or.inl rfl)
    rfl rfl rfl rfl

end MicroArch
